import Mathlib

/-!
Shallow embedding of two components of the repository:

* `Interval` (source: the `interval` package) — a resettable, jitterable
  periodic trigger built around a timer, a capacity-one output channel, and a
  background goroutine `run` driven by a `select` loop.

* the external-cloud-audit `credentialsCache` (source:
  `lib/integrations/externalcloudaudit/configurator.go`) — a cache of
  time-bounded AWS credentials refreshed in the background, with two one-shot
  latches (`initialized`, `gotFirstCredsOrErr`).

Go time instants and durations are modelled as `Int` nanoseconds,
`t1.Before(t2)` as `t1 < t2`, and `t.Add(d)` as `t + d`.  External effects
(the STS issuer call, the token generator) are modelled as parameters holding
the result the external call would produce.
-/

namespace ECA

/-- Go `time.Time` instants, as integer nanoseconds since the epoch. -/
abbrev Time := Int

/-- Go `time.Duration`, integer nanoseconds. -/
abbrev Duration := Int

/-- `refreshBeforeExpirationPeriod = 15 * time.Minute` from the source. -/
def refreshBeforeExpirationPeriod : Duration := 15 * 60 * 1000000000

/-- `refreshCheckInterval = 30 * time.Second` from the source. -/
def refreshCheckInterval : Duration := 30 * 1000000000

/-- The fields of `aws.Credentials` that the cache reads: the key triple and
the expiry instant. -/
structure Credentials where
  accessKeyID : String
  secretAccessKey : String
  sessionToken : String
  expires : Time
deriving Repr, DecidableEq

/-- `aws.Credentials.HasKeys`: both the access key id and the secret are
non-empty. -/
def Credentials.HasKeys (c : Credentials) : Bool :=
  c.accessKeyID ≠ "" && c.secretAccessKey ≠ ""

/-- The Go zero value of `aws.Credentials`. -/
def Credentials.zero : Credentials :=
  { accessKeyID := "", secretAccessKey := "", sessionToken := "", expires := 0 }

/-- The `credsOrErr` record guarded by `credsOrErrMu`. -/
structure CredsOrErr where
  creds : Credentials
  err : Option String
deriving Repr, DecidableEq

/-- The mutable state of a `credentialsCache`.  The two closed-channel
latches are modelled as Booleans (`false` = channel still open); the
dynamically injected `generateOIDCTokenFn` is modelled by the Boolean
recording whether it has been set, since its computational content lives
behind the external issuer boundary. -/
structure CredentialsCache where
  roleARN : String
  generateOIDCTokenFnSet : Bool
  initDone : Bool
  gotFirstCredsOrErr : Bool
  credsOrErr : CredsOrErr
deriving Repr, DecidableEq

/-- The synthetic placeholder error installed by `newCredentialsCache`. -/
def notYetInitErr : String :=
  "ExternalCloudAudit: credential cache not yet initialized"

/-- `newCredentialsCache`: both latch channels open, no token fn, and the
cached result pre-set to the synthetic placeholder error with zero-value
credentials. -/
def newCredentialsCache (roleARN : String) : CredentialsCache :=
  { roleARN := roleARN
    generateOIDCTokenFnSet := false
    initDone := false
    gotFirstCredsOrErr := false
    credsOrErr := { creds := Credentials.zero, err := some notYetInitErr } }

/-- `setGenerateOIDCTokenFn`: record the token fn and close the
`initialized` channel (via `closeInitialized`, a `sync.OnceFunc`). -/
def setGenerateOIDCTokenFn (cc : CredentialsCache) : CredentialsCache :=
  { cc with generateOIDCTokenFnSet := true, initDone := true }

/-- `Retrieve`: read the latest cached result under the read lock and return
both fields. -/
def Retrieve (cc : CredentialsCache) : Credentials × Option String :=
  (cc.credsOrErr.creds, cc.credsOrErr.err)

/-- `setCredsOrErr`: overwrite the cached result under the write lock and
close the `gotFirstCredsOrErr` channel (via `closeGotFirstCredsOrErr`, a
`sync.OnceFunc`). -/
def setCredsOrErr (cc : CredentialsCache) (coe : CredsOrErr) : CredentialsCache :=
  { cc with credsOrErr := coe, gotFirstCredsOrErr := true }

/-- One poll of `refreshIfNeeded`.

`now1` is `cc.clock.Now()` at the freshness check; `now2` is
`cc.clock.Now()` at the failure-handling check (the clock may have advanced
while the issuer call ran).  `issue` is the result the external refresh
(`cc.refresh`: token generation plus the STS web-identity exchange) would
return if invoked.

Returns the updated cache together with a Boolean recording whether the
issuer was invoked.  Mirrors the source line by line:

* skip when the cached `err` is nil, the cached credentials have keys, and
  `now.Add(refreshBeforeExpirationPeriod).Before(creds.Expires)`;
* on issuer failure, keep the cache untouched when the previously read
  credentials have keys and `now.Before(creds.Expires)`, otherwise store
  `credsOrErr{err: ...}` (zero-value credentials);
* on success store `credsOrErr{creds: ...}` (nil error). -/
def refreshIfNeeded (cc : CredentialsCache) (now1 now2 : Time)
    (issue : Except String Credentials) : CredentialsCache × Bool :=
  let credsFromCache := cc.credsOrErr.creds
  if cc.credsOrErr.err = none ∧ credsFromCache.HasKeys ∧
      now1 + refreshBeforeExpirationPeriod < credsFromCache.expires then
    (cc, false)
  else
    match issue with
    | .error e =>
      if credsFromCache.HasKeys ∧ now2 < credsFromCache.expires then
        (cc, true)
      else
        (setCredsOrErr cc { creds := Credentials.zero, err := some e }, true)
    | .ok creds =>
      (setCredsOrErr cc { creds := creds, err := none }, true)

/-- `waitForFirstCredsOrErr` unblocks exactly when the context is done or
the `gotFirstCredsOrErr` channel is closed; this predicate says whether the
`select` has a ready case, i.e. whether the call returns. -/
def waitForFirstCredsOrErr (ctxDone : Bool) (cc : CredentialsCache) : Bool :=
  ctxDone || cc.gotFirstCredsOrErr

end ECA

namespace Interval

/-- The configurable parts of `interval.Config` that the algorithm reads:
the nominal duration, the optional first duration, and the optional jitter
function (`nil` modelled as `none`). -/
structure Config where
  duration : Int
  firstDuration : Int
  jitter : Option (Int → Int)

/-- `(i *Interval) duration()`: apply the jitter when one was supplied,
otherwise return the nominal duration. -/
def duration (cfg : Config) : Int :=
  match cfg.jitter with
  | none => cfg.duration
  | some j => j cfg.duration

/-- The first wait computed by `New`: `cfg.FirstDuration`, except that a
zero value is replaced by a freshly jittered duration. -/
def firstWait (cfg : Config) : Int :=
  if cfg.firstDuration = 0 then duration cfg else cfg.firstDuration

/-- The state of one `Interval`'s background `run` loop together with its
timer and capacity-one output channel.

* `tick` is the local `tick` variable (staged trigger value);
* `chArmed` says whether the local `ch` alias currently points at the output
  channel (`true`) or is nil (`false`);
* `buffered` is the content of the capacity-one output channel `i.ch`;
* `timerPending` is a firing sitting unreceived in `timer.Chan()`;
* `timerDuration` is the duration the timer was last armed with;
* `stopped` records that `i.done` is closed and the loop has exited. -/
structure RunState where
  tick : Int
  chArmed : Bool
  buffered : Option Int
  timerPending : Option Int
  timerDuration : Int
  stopped : Bool
deriving Repr, DecidableEq

/-- The two distinct time sources visible to the loop body: `clockNow` is
what `cfg.Clock.Now()` would return at this step, `wallNow` is what the
standard library `time.Now()` returns at this step.  They coincide only when
the configured clock is the real clock. -/
structure TimeEnv where
  clockNow : Int
  wallNow : Int
deriving Repr, DecidableEq

/-- The events the `run` loop (or its environment) can take: one per
`select` branch, plus the timer going off and a consumer receiving from the
output channel. -/
inductive Ev where
  /-- the loop receives the value `t` from `timer.Chan()` -/
  | timerFire (t : Int)
  /-- a `Reset` call rendezvouses on `i.reset` -/
  | resetSig
  /-- a `FireNow` call rendezvouses on `i.fire` -/
  | fireSig
  /-- the staged tick is handed to the output channel (`ch <- tick`) -/
  | send
  /-- a consumer receives a buffered value from `i.ch` -/
  | consume
  /-- the loop observes `i.done` closed and exits -/
  | stopSig
  /-- the armed timer elapses, placing the firing time `t` in its channel -/
  | timerExpire (t : Int)
deriving Repr, DecidableEq

/-- One step of the `run` loop (and of its timer/consumer environment).
Returns `none` when the event is not enabled in state `s`.  Mirrors the
`select` body of `(i *Interval) run`:

* `timerFire`: `tick = <-timer.Chan(); timer.Reset(i.duration()); ch = i.ch`;
* `resetSig`: stop and drain the timer (consuming the one stale firing when
  present), `timer.Reset(i.duration())`, `ch = nil`;
* `fireSig`: stop and drain the timer, `timer.Reset(i.duration())`,
  `tick = time.Now()` — the wall clock, not `cfg.Clock` — and `ch = i.ch`;
* `send`: enabled when `ch` is non-nil and the capacity-one buffer is empty;
  buffers `tick` and sets `ch = nil`;
* `consume`: a receive on `i.ch`; stays available after the loop exits
  because the output channel is never closed;
* `stopSig`: the loop returns (its deferred `timer.Stop()` runs);
* `timerExpire`: environment step for the armed timer going off. -/
def stepRun (cfg : Config) (env : TimeEnv) (s : RunState) (e : Ev) :
    Option RunState :=
  match e with
  | .timerFire t =>
    if s.stopped then none else
      match s.timerPending with
      | none => none
      | some _ =>
        some { s with tick := t, timerPending := none,
                      timerDuration := duration cfg, chArmed := true }
  | .resetSig =>
    if s.stopped then none else
      some { s with timerPending := none,
                    timerDuration := duration cfg, chArmed := false }
  | .fireSig =>
    if s.stopped then none else
      some { s with timerPending := none,
                    timerDuration := duration cfg,
                    tick := env.wallNow, chArmed := true }
  | .send =>
    if s.stopped then none else
      if s.chArmed ∧ s.buffered = none then
        some { s with buffered := some s.tick, chArmed := false }
      else none
  | .consume =>
    match s.buffered with
    | some _ => some { s with buffered := none }
    | none => none
  | .stopSig =>
    if s.stopped then none else some { s with stopped := true }
  | .timerExpire t =>
    if s.stopped then none else
      match s.timerPending with
      | none => some { s with timerPending := some t }
      | some _ => none

/-- The state `New` leaves behind for a positive duration: local `tick` and
`ch` at their zero values, empty output channel, the timer freshly armed
with the first wait, and the background goroutine running. -/
def initState (cfg : Config) : RunState :=
  { tick := 0, chArmed := false, buffered := none, timerPending := none,
    timerDuration := firstWait cfg, stopped := false }

/-- `New`: `none` models the construction-time fatal error raised on a
non-positive duration; otherwise the started interval. -/
def New (cfg : Config) : Option RunState :=
  if cfg.duration ≤ 0 then none else some (initState cfg)

/-- `Stop`: close `i.done` inside `closeOnce`. -/
def Stop (s : RunState) : RunState :=
  { s with stopped := true }

/-- The caller-visible effect of `Reset`: a no-op when `i.done` is already
closed (the `select` takes the `<-i.done` branch without blocking),
otherwise the rendezvoused `resetSig` step of the loop. -/
def Reset (cfg : Config) (env : TimeEnv) (s : RunState) : RunState :=
  (stepRun cfg env s .resetSig).getD s

/-- The caller-visible effect of `FireNow`: a no-op when `i.done` is already
closed, otherwise the rendezvoused `fireSig` step of the loop. -/
def FireNow (cfg : Config) (env : TimeEnv) (s : RunState) : RunState :=
  (stepRun cfg env s .fireSig).getD s

end Interval

/-! ## Concrete states used by the witness theorems -/

/-- A cache state holding valid credentials expiring at instant 100, with a
nil cached error, after initialization and a first successful refresh. -/
def ccValid : ECA.CredentialsCache :=
  { roleARN := "role", generateOIDCTokenFnSet := true, initDone := true,
    gotFirstCredsOrErr := true,
    credsOrErr :=
      { creds := { accessKeyID := "AKIA", secretAccessKey := "SECRET",
                   sessionToken := "tok", expires := 100 },
        err := none } }

/-- Issuer-returned credentials whose expiry (instant 3) is already past. -/
def staleIssued : ECA.Credentials :=
  { accessKeyID := "AKIA2", secretAccessKey := "SECRET2",
    sessionToken := "tok2", expires := 3 }

/-- Issuer-returned credentials expiring comfortably in the future. -/
def goodIssued : ECA.Credentials :=
  { accessKeyID := "AKIA3", secretAccessKey := "SECRET3",
    sessionToken := "tok3", expires := 7000000000000 }

/-! ## Claims about the credentials cache -/

/-- Claim C1: on a refresh poll where the issuer is invoked (the freshness
check did not skip it) and the invocation fails, the cached result is left
completely unchanged whenever the previously cached credentials are
non-empty and their expiry is still in the future at the current clock time;
only when no such valid cached credentials exist is the cached result
replaced with the failure (zero-value credentials plus the error). -/
theorem refresh_failure_keeps_valid_creds
    (cc : ECA.CredentialsCache) (now1 now2 : ECA.Time) (e : String)
    (hattempt : ¬ (cc.credsOrErr.err = none ∧ cc.credsOrErr.creds.HasKeys ∧
      now1 + ECA.refreshBeforeExpirationPeriod < cc.credsOrErr.creds.expires)) :
    (cc.credsOrErr.creds.HasKeys ∧ now2 < cc.credsOrErr.creds.expires →
      (ECA.refreshIfNeeded cc now1 now2 (.error e)).1 = cc) ∧
    (¬ (cc.credsOrErr.creds.HasKeys ∧ now2 < cc.credsOrErr.creds.expires) →
      (ECA.refreshIfNeeded cc now1 now2 (.error e)).1.credsOrErr =
        { creds := ECA.Credentials.zero, err := some e }) := by
  constructor <;> intro h
  · unfold ECA.refreshIfNeeded
    dsimp only
    split
    · rfl
    · rfl
  · unfold ECA.refreshIfNeeded
    dsimp only
    rw [if_neg hattempt, if_neg h]
    rfl

/-- Witness for C1 at a concrete input: the issuer fails at poll time 95/50
while the cache holds non-empty credentials expiring at 100, and the cache
is unchanged. -/
theorem refresh_failure_keeps_valid_creds_witness :
    (ECA.refreshIfNeeded ccValid 95 50 (.error "boom")).1 = ccValid :=
  (refresh_failure_keeps_valid_creds ccValid 95 50 "boom" (by decide)).1 (by decide)

/-- Claim C2: a poll does nothing — issuer not invoked, cache unchanged —
exactly when the cached result has a nil error and non-empty credentials
whose expiry lies more than `refreshBeforeExpirationPeriod` after the
current clock time; otherwise a refresh is attempted. -/
theorem refresh_skip_iff_still_fresh
    (cc : ECA.CredentialsCache) (now1 now2 : ECA.Time)
    (issue : Except String ECA.Credentials) :
    (cc.credsOrErr.err = none ∧ cc.credsOrErr.creds.HasKeys ∧
        now1 + ECA.refreshBeforeExpirationPeriod < cc.credsOrErr.creds.expires →
      ECA.refreshIfNeeded cc now1 now2 issue = (cc, false)) ∧
    (¬ (cc.credsOrErr.err = none ∧ cc.credsOrErr.creds.HasKeys ∧
        now1 + ECA.refreshBeforeExpirationPeriod < cc.credsOrErr.creds.expires) →
      (ECA.refreshIfNeeded cc now1 now2 issue).2 = true) := by
  constructor <;> intro h
  · simp [ECA.refreshIfNeeded, h]
  · unfold ECA.refreshIfNeeded
    dsimp only
    rw [if_neg h]
    cases issue with
    | error e => dsimp only; split <;> rfl
    | ok creds => rfl

/-- Witness for C2 at a concrete input: with credentials expiring at instant
7000000000000 and the clock at 0, the skip condition holds and the poll is a
no-op with the issuer uninvoked. -/
theorem refresh_skip_iff_still_fresh_witness :
    ECA.refreshIfNeeded
        (ECA.setCredsOrErr ccValid { creds := goodIssued, err := none }) 0 0
        (.error "down") =
      (ECA.setCredsOrErr ccValid { creds := goodIssued, err := none }, false) :=
  (refresh_skip_iff_still_fresh _ 0 0 _).1 (by decide)

/-- Claim C3: before the first refresh attempt has completed — both in the
freshly constructed cache and after the issuer capability is attached —
`Retrieve` returns zero-value credentials together with the synthetic
"credential cache not yet initialized" error, and in particular never a
zero-value success with a nil error (and, being a total function of the
state, never a panic). -/
theorem retrieve_before_first_refresh (r : String) :
    ECA.Retrieve (ECA.newCredentialsCache r) =
      (ECA.Credentials.zero, some ECA.notYetInitErr) ∧
    ECA.Retrieve (ECA.setGenerateOIDCTokenFn (ECA.newCredentialsCache r)) =
      (ECA.Credentials.zero, some ECA.notYetInitErr) ∧
    (ECA.Retrieve (ECA.newCredentialsCache r)).2 ≠ none ∧
    (ECA.Retrieve (ECA.setGenerateOIDCTokenFn (ECA.newCredentialsCache r))).2 ≠ none := by
  refine ⟨rfl, rfl, ?_, ?_⟩ <;>
    simp [ECA.Retrieve, ECA.newCredentialsCache, ECA.setGenerateOIDCTokenFn]

/-- Claim C4: `waitForFirstCredsOrErr` returns exactly when the context is
done or the first-result latch is set; every publication through
`setCredsOrErr` — success or failure alike — sets the latch; the latch
starts unset, is set by a failing first refresh attempt just as by a
success, and once set it never resets on later polls. -/
theorem wait_unblocks_on_first_result
    (r : String) (ctxDone : Bool) (cc : ECA.CredentialsCache)
    (coe : ECA.CredsOrErr) (now1 now2 : ECA.Time) (e : String)
    (issue : Except String ECA.Credentials) :
    (ECA.waitForFirstCredsOrErr ctxDone cc = true ↔
      ctxDone = true ∨ cc.gotFirstCredsOrErr = true) ∧
    (ECA.setCredsOrErr cc coe).gotFirstCredsOrErr = true ∧
    (ECA.newCredentialsCache r).gotFirstCredsOrErr = false ∧
    (ECA.refreshIfNeeded (ECA.newCredentialsCache r) now1 now2
        (.error e)).1.gotFirstCredsOrErr = true ∧
    (cc.gotFirstCredsOrErr = true →
      (ECA.refreshIfNeeded cc now1 now2 issue).1.gotFirstCredsOrErr = true) := by
  refine ⟨?_, rfl, rfl, ?_, ?_⟩
  · simp [ECA.waitForFirstCredsOrErr]
  · simp [ECA.refreshIfNeeded, ECA.newCredentialsCache, ECA.setCredsOrErr,
      ECA.Credentials.HasKeys, ECA.Credentials.zero, ECA.notYetInitErr]
  · intro h
    unfold ECA.refreshIfNeeded
    dsimp only
    split
    · exact h
    · cases issue with
      | error e2 =>
        dsimp only
        split
        · exact h
        · rfl
      | ok creds => rfl

/-- Witness for C4 at a concrete input: a later poll of a cache whose latch
is already set leaves the latch set. -/
theorem wait_unblocks_on_first_result_witness :
    (ECA.refreshIfNeeded ccValid 95 50
        (.ok goodIssued)).1.gotFirstCredsOrErr = true :=
  (wait_unblocks_on_first_result "role" false ccValid
    { creds := goodIssued, err := none } 95 50 "boom"
    (.ok goodIssued)).2.2.2.2 (by decide)

/-- Claim C9 fails as stated: a successful refresh stores the issued
credentials without any expiry check, so at a concrete poll where the
issuer returns credentials already expired (expiry 3, clock at 5) the
cached result is a success (nil error) whose expiry is not in the future. -/
theorem successful_refresh_may_store_past_expiry :
    (ECA.refreshIfNeeded (ECA.newCredentialsCache "role") 5 5
        (.ok staleIssued)).1.credsOrErr.err = none ∧
    ¬ (5 < (ECA.refreshIfNeeded (ECA.newCredentialsCache "role") 5 5
        (.ok staleIssued)).1.credsOrErr.creds.expires) := by
  decide

/-- Claim C9 (amended): after every poll whose issuer invocation succeeds,
the cached result holds exactly the newly issued credentials with a nil
error; the stored expiry is strictly in the future whenever the issuer
returned an expiry in the future at the store-time clock reading — the code
itself performs no expiry check on success. -/
theorem successful_refresh_stores_creds
    (cc : ECA.CredentialsCache) (now1 now2 : ECA.Time)
    (creds : ECA.Credentials)
    (hattempt : (ECA.refreshIfNeeded cc now1 now2 (.ok creds)).2 = true) :
    (ECA.refreshIfNeeded cc now1 now2 (.ok creds)).1.credsOrErr =
      { creds := creds, err := none } ∧
    (now2 < creds.expires →
      now2 < (ECA.refreshIfNeeded cc now1 now2
        (.ok creds)).1.credsOrErr.creds.expires) := by
  by_cases hskip : cc.credsOrErr.err = none ∧ cc.credsOrErr.creds.HasKeys ∧
      now1 + ECA.refreshBeforeExpirationPeriod < cc.credsOrErr.creds.expires
  · exfalso
    simp [ECA.refreshIfNeeded, hskip] at hattempt
  · constructor
    · simp [ECA.refreshIfNeeded, hskip, ECA.setCredsOrErr]
    · intro h
      simpa [ECA.refreshIfNeeded, hskip, ECA.setCredsOrErr] using h

/-- Witness for C9 (amended) at a concrete input: a fresh cache refreshed
successfully at clock 5 with credentials expiring at 7000000000000 stores
exactly those credentials with a nil error. -/
theorem successful_refresh_stores_creds_witness :
    (ECA.refreshIfNeeded (ECA.newCredentialsCache "role") 5 5
        (.ok goodIssued)).1.credsOrErr =
      { creds := goodIssued, err := none } :=
  (successful_refresh_stores_creds (ECA.newCredentialsCache "role") 5 5
    goodIssued (by decide)).1

/-! ## Concrete interval states used by witnesses and counterexamples -/

/-- A sample configuration: nominal duration 100, default first duration,
no jitter. -/
def cfgW : Interval.Config :=
  { duration := 100, firstDuration := 0, jitter := none }

/-- A sample environment in which the configured clock (5) and the wall
clock (7) disagree, as under a fake test clock. -/
def envW : Interval.TimeEnv := { clockNow := 5, wallNow := 7 }

/-- A running loop state with a stale timer firing pending in the timer
channel and one already-buffered trigger. -/
def sRunning : Interval.RunState :=
  { tick := 0, chArmed := false, buffered := some 2, timerPending := some 3,
    timerDuration := 100, stopped := false }

/-- `sRunning` after the loop receives the timer firing 3. -/
def sAfterFire : Interval.RunState :=
  { tick := 3, chArmed := true, buffered := some 2, timerPending := none,
    timerDuration := 100, stopped := false }

/-- `sRunning` after the loop observes a `Reset`. -/
def sAfterReset : Interval.RunState :=
  { tick := 0, chArmed := false, buffered := some 2, timerPending := none,
    timerDuration := 100, stopped := false }

/-- `sRunning` after the loop observes a `FireNow` in environment
`envW`. -/
def sAfterFireNow : Interval.RunState :=
  { tick := 7, chArmed := true, buffered := some 2, timerPending := none,
    timerDuration := 100, stopped := false }

/-- A stopped loop state that still holds one buffered, unconsumed
trigger. -/
def sStopped : Interval.RunState :=
  { tick := 1, chArmed := true, buffered := some 1, timerPending := none,
    timerDuration := 100, stopped := true }

/-! ## Claims about the interval -/

/-- Claim C5: the output channel holds at most one pending trigger — a
`send` step requires the capacity-one buffer to be empty and fills it with
the staged tick; no trigger is delivered twice, since a `send` disarms the
staged trigger and a second `send` is disabled; once the loop has stopped no
event can stage or produce a trigger, yet a previously buffered trigger can
still be consumed (the channel is never closed); and `Stop` is
idempotent. -/
theorem interval_single_pending_trigger
    (cfg : Interval.Config) (env : Interval.TimeEnv)
    (s s2 : Interval.RunState) (t : Int) :
    (Interval.stepRun cfg env s .send = some s2 →
      s.buffered = none ∧ s2.buffered = some s.tick ∧ s2.chArmed = false) ∧
    (Interval.stepRun cfg env s .send = some s2 →
      Interval.stepRun cfg env s2 .send = none) ∧
    (s.stopped = true →
      Interval.stepRun cfg env s (.timerFire t) = none ∧
      Interval.stepRun cfg env s .resetSig = none ∧
      Interval.stepRun cfg env s .fireSig = none ∧
      Interval.stepRun cfg env s .send = none ∧
      Interval.stepRun cfg env s (.timerExpire t) = none) ∧
    (s.stopped = true → s.buffered = some t →
      Interval.stepRun cfg env s .consume = some { s with buffered := none }) ∧
    Interval.Stop (Interval.Stop s) = Interval.Stop s := by
  refine ⟨?_, ?_, ?_, ?_, rfl⟩
  · intro h
    simp only [Interval.stepRun] at h
    split at h
    · exact absurd h (by simp)
    · split at h
      · next hcond =>
        injection h with h2
        subst h2
        exact ⟨hcond.2, rfl, rfl⟩
      · exact absurd h (by simp)
  · intro h
    simp only [Interval.stepRun] at h
    split at h
    · exact absurd h (by simp)
    · next hstop =>
      split at h
      · injection h with h2
        subst h2
        simp [Interval.stepRun, hstop]
      · exact absurd h (by simp)
  · intro h
    refine ⟨?_, ?_, ?_, ?_, ?_⟩ <;> simp [Interval.stepRun, h]
  · intro h hbuf
    simp only [Interval.stepRun]
    rw [hbuf]

/-- Witness for C5 at a concrete input: in the stopped state no send is
enabled, and the buffered trigger is still consumable. -/
theorem interval_single_pending_trigger_witness :
    Interval.stepRun cfgW envW sStopped .send = none ∧
    Interval.stepRun cfgW envW sStopped .consume =
      some { sStopped with buffered := none } :=
  ⟨((interval_single_pending_trigger cfgW envW sStopped sStopped 1).2.2.1
      (by decide)).2.2.2.1,
    (interval_single_pending_trigger cfgW envW sStopped sStopped 1).2.2.2.1
      (by decide) (by decide)⟩

/-- Claim C6: an observed `Reset` drains the (at most one) stale timer
firing, rearms the timer with a freshly jittered full period, and disarms
any staged-but-undelivered trigger, so no send is possible until a new
firing; the step leaves the already-buffered output untouched; it is enabled
exactly while the loop runs; and on an already-stopped interval `Reset` is a
non-blocking no-op. -/
theorem reset_drains_and_rearms
    (cfg : Interval.Config) (env : Interval.TimeEnv)
    (s s2 : Interval.RunState) :
    (Interval.stepRun cfg env s .resetSig = some s2 →
      s2.timerPending = none ∧ s2.timerDuration = Interval.duration cfg ∧
      s2.chArmed = false ∧ s2.buffered = s.buffered ∧
      Interval.stepRun cfg env s2 .send = none) ∧
    (s.stopped = false → Interval.stepRun cfg env s .resetSig =
      some { s with timerPending := none,
                    timerDuration := Interval.duration cfg,
                    chArmed := false }) ∧
    (s.stopped = true → Interval.Reset cfg env s = s) := by
  refine ⟨?_, ?_, ?_⟩
  · intro h
    simp only [Interval.stepRun] at h
    split at h
    · exact absurd h (by simp)
    · next hstop =>
      injection h with h2
      subst h2
      exact ⟨rfl, rfl, rfl, rfl, by simp [Interval.stepRun, hstop]⟩
  · intro h
    simp [Interval.stepRun, h]
  · intro h
    simp [Interval.Reset, Interval.stepRun, h]

/-- Witness for C6 at a concrete input: resetting the running state with a
stale pending firing and a buffered trigger drains the firing, rearms with
the (unjittered) period 100, and disarms the staged trigger. -/
theorem reset_drains_and_rearms_witness :
    Interval.stepRun cfgW envW sRunning .resetSig = some sAfterReset :=
  ((reset_drains_and_rearms cfgW envW sRunning sRunning).2.1 (by decide)).trans
    (by decide)

/-- Claim C7: the first wait is exactly `FirstDuration` when that is
non-zero; a zero `FirstDuration` is replaced by a freshly jittered duration
(never an immediate fire: positive whenever the jitterless duration is
positive); and every timer rearm after a firing uses `Jitter(Duration)`, or
exactly the nominal `Duration` when no jitter function is configured. -/
theorem first_and_subsequent_waits
    (cfg : Interval.Config) (env : Interval.TimeEnv)
    (s s2 : Interval.RunState) (t : Int) (j : Int → Int) :
    (cfg.firstDuration ≠ 0 → Interval.firstWait cfg = cfg.firstDuration) ∧
    (cfg.firstDuration = 0 → Interval.firstWait cfg = Interval.duration cfg) ∧
    (cfg.jitter = none → Interval.duration cfg = cfg.duration) ∧
    (cfg.jitter = some j → Interval.duration cfg = j cfg.duration) ∧
    (cfg.firstDuration = 0 → cfg.jitter = none → 0 < cfg.duration →
      0 < Interval.firstWait cfg) ∧
    (Interval.stepRun cfg env s (.timerFire t) = some s2 →
      s2.timerDuration = Interval.duration cfg) := by
  refine ⟨?_, ?_, ?_, ?_, ?_, ?_⟩
  · intro h; simp [Interval.firstWait, h]
  · intro h; simp [Interval.firstWait, h]
  · intro h; simp [Interval.duration, h]
  · intro h; simp [Interval.duration, h]
  · intro h1 h2 h3; simpa [Interval.firstWait, Interval.duration, h1, h2] using h3
  · intro h
    simp only [Interval.stepRun] at h
    split at h
    · exact absurd h (by simp)
    · split at h
      · exact absurd h (by simp)
      · injection h with h2
        subst h2
        rfl

/-- Witness for C7 at concrete inputs: with duration 100, first duration 0
and no jitter, the first wait is the (unjittered) duration 100, and a timer
firing rearms with 100. -/
theorem first_and_subsequent_waits_witness :
    Interval.firstWait cfgW = Interval.duration cfgW ∧
    Interval.stepRun cfgW envW sRunning (.timerFire 3) = some sAfterFire ∧
    sAfterFire.timerDuration = Interval.duration cfgW :=
  ⟨(first_and_subsequent_waits cfgW envW sRunning sRunning 3 id).2.1 (by decide),
    by decide,
    (first_and_subsequent_waits cfgW envW sRunning sAfterFire 3
        id).2.2.2.2.2 (by decide)⟩

/-- Claim C8: `New` aborts construction (the modelled fatal error, `none`)
if and only if the configured duration is non-positive — never a silent
clamp — and for every strictly positive duration it returns the started
interval state: background loop running and the timer armed with the first
wait. -/
theorem new_fails_iff_nonpositive (cfg : Interval.Config) :
    (Interval.New cfg = none ↔ cfg.duration ≤ 0) ∧
    (0 < cfg.duration →
      Interval.New cfg = some (Interval.initState cfg) ∧
      (Interval.initState cfg).stopped = false ∧
      (Interval.initState cfg).timerDuration = Interval.firstWait cfg) := by
  constructor
  · unfold Interval.New
    split
    · next hd => simp [hd]
    · next hd => simp [hd]
  · intro h
    refine ⟨?_, rfl, rfl⟩
    unfold Interval.New
    rw [if_neg (by omega)]

/-- Witness for C8 at a concrete input: duration 100 constructs the running
initial state. -/
theorem new_fails_iff_nonpositive_witness :
    Interval.New cfgW = some (Interval.initState cfgW) :=
  ((new_fails_iff_nonpositive cfgW).2 (by decide)).1

/-- Claim C10 fails as stated: the fire-now branch stages `time.Now()` —
the wall clock — not the configured clock's now.  At a concrete step where
the configured clock reads 5 while the wall clock reads 7, the staged
trigger carries 7 and not 5. -/
theorem firenow_ignores_configured_clock :
    (Interval.stepRun cfgW envW sRunning .fireSig).map (fun s => s.tick) =
      some envW.wallNow ∧
    ¬ ((Interval.stepRun cfgW envW sRunning .fireSig).map (fun s => s.tick) =
      some envW.clockNow) := by decide

/-- Claim C10 (amended): an observed `FireNow` stages a trigger carrying
the current wall-clock time (`time.Now()`, which coincides with the
configured clock's now only when the real clock is configured), drains the
stale timer firing and rearms the timer with a freshly jittered full
period; on an already-stopped interval `FireNow` is a non-blocking
no-op. -/
theorem firenow_stages_wall_now
    (cfg : Interval.Config) (env : Interval.TimeEnv)
    (s s2 : Interval.RunState) :
    (Interval.stepRun cfg env s .fireSig = some s2 →
      s2.tick = env.wallNow ∧ s2.chArmed = true ∧ s2.timerPending = none ∧
      s2.timerDuration = Interval.duration cfg) ∧
    (s.stopped = true → Interval.FireNow cfg env s = s) := by
  constructor
  · intro h
    simp only [Interval.stepRun] at h
    split at h
    · exact absurd h (by simp)
    · injection h with h2
      subst h2
      exact ⟨rfl, rfl, rfl, rfl⟩
  · intro h
    simp [Interval.FireNow, Interval.stepRun, h]

/-- Witness for C10 (amended) at a concrete input: firing now in the
running state under environment `envW` stages wall-clock time 7. -/
theorem firenow_stages_wall_now_witness :
    sAfterFireNow.tick = envW.wallNow :=
  ((firenow_stages_wall_now cfgW envW sRunning sAfterFireNow).1
    (by decide)).1
